import Mathlib

/-
Verification of the signalling relay and browser client of the
robotics_webrtc repository.

Server model (from src/src/server.js): the socket.io relay is embedded as a
state machine.  A `ServerState` carries the connected sessions, their
nicknames (the `socket.nickname` property, an association list keyed by
session id) and the adapter's named rooms (an association list from room
name to its member list, in insertion order).  The adapter's per-socket
private rooms (keyed by the socket id, filtered out of `publicRooms` by the
`sids.get(key) === undefined` test in the source) are kept out of the
`rooms` list; a room whose member list has become empty is retained with an
empty list and filtered out of `publicRooms`, which is observationally the
same as the adapter deleting it.  Each socket.io event handler becomes a
function from the state and the message arguments to a `HandlerResult`:
the next state, the list of emitted messages tagged with their target
session, and whether the handler invoked its acknowledgment callback
(`done()`).

Client model (from src/src/public/js/app.js and from the second client
variant, the unnamed source file part_000): the mutable page globals
(`myStream`, `myPeerConnection`, `myDataChannel`, the two video elements'
`srcObject`, the `muted`/`cameraOff` flags and `roomName`) form a
`ClientState`.  A media stream is a list of tracks; a peer connection is
modelled by the list of tracks added to it.  DOM-only effects (the camera
select options, chat list items) and console logging are outside the state.
JavaScript exceptions that abort a control flow are modelled by `Option`
results.
-/

abbrev SessionId := Nat

abbrev RoomName := String

/-- IceCandidate models the fields of an RTCIceCandidate that the clients
read or re-wrap: the candidate string, sdpMid and sdpMLineIndex. -/
structure IceCandidate where
  candidate : String
  sdpMid : String
  sdpMLineIndex : Nat
deriving DecidableEq

/-- SMsg is a server-to-client message, as emitted by the relay's handlers
in src/src/server.js. -/
inductive SMsg where
  | room_full
  | welcome (nick : String)
  | bye (nick : String)
  | new_message (text : String)
  | offer (payload : String)
  | answer (payload : String)
  | ice (payload : Option IceCandidate)
  | room_change (rooms : List (RoomName × Nat))
deriving DecidableEq

/-- Emit is one emitted message together with the session that receives it. -/
abbrev Emit := SessionId × SMsg

/-- ServerState is the relay's mutable state: connected sessions, their
nickname properties, and the adapter's named rooms. -/
structure ServerState where
  connected : List SessionId
  nick : List (SessionId × String)
  rooms : List (RoomName × List SessionId)
deriving DecidableEq

/-- The initialState has no session and no room. -/
def initialState : ServerState := { connected := [], nick := [], rooms := [] }

/-- membersOf looks a room up in the adapter's room list; an absent room has
no members (the `rooms.get(roomName)?` of the source). -/
def membersOf : List (RoomName × List SessionId) → RoomName → List SessionId
  | [], _ => []
  | (a, ms) :: rest, r => if a = r then ms else membersOf rest r

/-- countRoomMembers embeds the server's countRoomMembers: the size of the
room's member set, 0 when the room does not exist
(`wsServer.sockets.adapter.rooms.get(roomName)?.size || 0`). -/
def countRoomMembers (st : ServerState) (r : RoomName) : Nat :=
  (membersOf st.rooms r).length

/-- addMember embeds `socket.join(roomName)`: the session is added to the
room's member set (a no-op when it is already a member); a fresh room is
created at the end of the adapter's room list. -/
def addMember : List (RoomName × List SessionId) → RoomName → SessionId → List (RoomName × List SessionId)
  | [], r, sid => [(r, [sid])]
  | (a, ms) :: rest, r, sid =>
    if a = r then (a, if sid ∈ ms then ms else ms ++ [sid]) :: rest
    else (a, ms) :: addMember rest r sid

/-- removeMember embeds `socket.leave(roomName)`: the session is removed
from the named room's member set. -/
def removeMember : List (RoomName × List SessionId) → RoomName → SessionId → List (RoomName × List SessionId)
  | [], _, _ => []
  | (a, ms) :: rest, r, sid =>
    if a = r then (a, ms.filter (fun t => t != sid)) :: rest
    else (a, ms) :: removeMember rest r sid

/-- removeFromAll removes a disconnecting session from every room. -/
def removeFromAll (rooms : List (RoomName × List SessionId)) (sid : SessionId) :
    List (RoomName × List SessionId) :=
  rooms.map (fun p => (p.1, p.2.filter (fun t => t != sid)))

/-- roomsContaining lists the named rooms a session is in (the named part of
`socket.rooms`; the session's private sid room is omitted because emitting
to it reaches nobody once the sender is excluded). -/
def roomsContaining (rooms : List (RoomName × List SessionId)) (sid : SessionId) : List RoomName :=
  (rooms.filter (fun p => p.2.contains sid)).map (fun p => p.1)

/-- publicRooms embeds the server's publicRooms: every named, currently
occupied room paired with its member count. -/
def publicRooms (st : ServerState) : List (RoomName × Nat) :=
  (st.rooms.filter (fun p => !p.2.isEmpty)).map (fun p => (p.1, p.2.length))

/-- lookupNick reads a session's `socket.nickname` property; the connection
handler initialises it to "Anonymous". -/
def lookupNick : List (SessionId × String) → SessionId → String
  | [], _ => "Anonymous"
  | (s, m) :: rest, sid => if s = sid then m else lookupNick rest sid

/-- setNick overwrites a session's `socket.nickname` property. -/
def setNick : List (SessionId × String) → SessionId → String → List (SessionId × String)
  | [], sid, n => [(sid, n)]
  | (s, m) :: rest, sid, n =>
    if s = sid then (s, n) :: rest else (s, m) :: setNick rest sid n

/-- getNick is the nickname the relay uses for a session. -/
def getNick (st : ServerState) (sid : SessionId) : String :=
  lookupNick st.nick sid

/-- toRoom embeds `socket.to(roomName).emit(msg)`: the message goes to every
current member of the named room except the sender; the sender's own
membership is not checked. -/
def toRoom (st : ServerState) (sender : SessionId) (r : RoomName) (m : SMsg) : List Emit :=
  ((membersOf st.rooms r).filter (fun t => t != sender)).map (fun t => (t, m))

/-- broadcastAll embeds `wsServer.sockets.emit(msg)`: the message goes to
every connected session. -/
def broadcastAll (st : ServerState) (m : SMsg) : List Emit :=
  st.connected.map (fun t => (t, m))

/-- HandlerResult is the outcome of one socket.io event handler: the next
server state, the emitted messages in order, and whether the handler called
its acknowledgment callback. -/
structure HandlerResult where
  state : ServerState
  emits : List Emit
  ack : Bool
deriving DecidableEq

/-- joinedState is the server state right after `socket.join(roomName)`. -/
def joinedState (st : ServerState) (sid : SessionId) (r : RoomName) : ServerState :=
  { st with rooms := addMember st.rooms r sid }

/-- join_room embeds the server's join_room handler: when the room already
has 2 or more members the requester alone gets room_full and nothing else
happens; otherwise the session joins, the callback fires, the other room
members get welcome with the joiner's nickname, and room_change with the
recomputed public room list goes to every connected session. -/
def join_room (st : ServerState) (sid : SessionId) (r : RoomName) : HandlerResult :=
  if 2 ≤ countRoomMembers st r then
    { state := st, emits := [(sid, SMsg.room_full)], ack := false }
  else
    let st' := joinedState st sid r
    { state := st',
      emits := toRoom st' sid r (SMsg.welcome (getNick st sid))
                 ++ broadcastAll st' (SMsg.room_change (publicRooms st')),
      ack := true }

/-- leftState is the server state right after `socket.leave(roomName)`. -/
def leftState (st : ServerState) (sid : SessionId) (r : RoomName) : ServerState :=
  { st with rooms := removeMember st.rooms r sid }

/-- leave_room embeds the server's leave_room handler: bye with the leaver's
nickname goes to the room's other members, the session leaves, room_change
with the recomputed public room list goes to every connected session, and
the callback fires. -/
def leave_room (st : ServerState) (sid : SessionId) (r : RoomName) : HandlerResult :=
  let byes := toRoom st sid r (SMsg.bye (getNick st sid))
  let st' := leftState st sid r
  { state := st',
    emits := byes ++ broadcastAll st' (SMsg.room_change (publicRooms st')),
    ack := true }

/-- discState is the server state once a disconnected session has been
removed from every room, from the session list and from the nickname map. -/
def discState (st : ServerState) (sid : SessionId) : ServerState :=
  { connected := st.connected.filter (fun t => t != sid),
    nick := st.nick.filter (fun p => p.1 != sid),
    rooms := removeFromAll st.rooms sid }

/-- byesOnDisconnect collects the bye messages the disconnecting handler
sends: one `socket.to(room).emit('bye', nickname)` per room of the socket. -/
def byesOnDisconnect (st : ServerState) (sid : SessionId) : List Emit :=
  ((roomsContaining st.rooms sid).map (fun r => toRoom st sid r (SMsg.bye (getNick st sid)))).flatten

/-- onDisconnect embeds the disconnecting and disconnect handlers together:
bye to the other members of each of the session's rooms, then, once the
socket is gone, room_change with the recomputed public room list to every
still-connected session. -/
def onDisconnect (st : ServerState) (sid : SessionId) : HandlerResult :=
  let byes := byesOnDisconnect st sid
  let st' := discState st sid
  { state := st',
    emits := byes ++ broadcastAll st' (SMsg.room_change (publicRooms st')),
    ack := false }

/-- onConnection embeds the connection handler: the socket's nickname is
initialised to "Anonymous" and room_change with the public room list goes
to every connected session. -/
def onConnection (st : ServerState) (sid : SessionId) : ServerState × List Emit :=
  let st' : ServerState :=
    { st with
      connected := st.connected ++ [sid]
      nick := setNick st.nick sid "Anonymous" }
  (st', broadcastAll st' (SMsg.room_change (publicRooms st')))

/-- new_message embeds the server's new_message handler: the chat line,
prefixed by the sender's nickname, goes to the named room's other members
and the callback fires. -/
def new_message (st : ServerState) (sid : SessionId) (msg : String) (r : RoomName) : HandlerResult :=
  { state := st,
    emits := toRoom st sid r (SMsg.new_message (getNick st sid ++ ": " ++ msg)),
    ack := true }

/-- nickname_handler embeds the server's nickname handler: it only stores
the new display name on the sender's socket. -/
def nickname_handler (st : ServerState) (sid : SessionId) (n : String) : HandlerResult :=
  { state := { st with nick := setNick st.nick sid n }, emits := [], ack := false }

/-- offer_handler embeds the server's offer handler: the payload is relayed
to the named room's other members. -/
def offer_handler (st : ServerState) (sid : SessionId) (p : String) (r : RoomName) : HandlerResult :=
  { state := st, emits := toRoom st sid r (SMsg.offer p), ack := false }

/-- answer_handler embeds the server's answer handler. -/
def answer_handler (st : ServerState) (sid : SessionId) (p : String) (r : RoomName) : HandlerResult :=
  { state := st, emits := toRoom st sid r (SMsg.answer p), ack := false }

/-- ice_handler embeds the server's ice handler: the candidate payload,
null included, is relayed unchanged to the named room's other members. -/
def ice_handler (st : ServerState) (sid : SessionId) (c : Option IceCandidate) (r : RoomName) : HandlerResult :=
  { state := st, emits := toRoom st sid r (SMsg.ice c), ack := false }

/-- Event is one client-originated occurrence the relay can process. -/
inductive Event where
  | connect (sid : SessionId)
  | join (sid : SessionId) (r : RoomName)
  | leave (sid : SessionId) (r : RoomName)
  | disconnect (sid : SessionId)
  | newMsg (sid : SessionId) (m : String) (r : RoomName)
  | rename (sid : SessionId) (n : String)
  | offer (sid : SessionId) (p : String) (r : RoomName)
  | answer (sid : SessionId) (p : String) (r : RoomName)
  | ice (sid : SessionId) (c : Option IceCandidate) (r : RoomName)

/-- stepState is the server state after processing one event. -/
def stepState (st : ServerState) : Event → ServerState
  | Event.connect sid => (onConnection st sid).1
  | Event.join sid r => (join_room st sid r).state
  | Event.leave sid r => (leave_room st sid r).state
  | Event.disconnect sid => (onDisconnect st sid).state
  | Event.newMsg sid m r => (new_message st sid m r).state
  | Event.rename sid n => (nickname_handler st sid n).state
  | Event.offer sid p r => (offer_handler st sid p r).state
  | Event.answer sid p r => (answer_handler st sid p r).state
  | Event.ice sid c r => (ice_handler st sid c r).state

/-- Reachable holds of every server state produced by some sequence of
events from the empty initial state. -/
inductive Reachable : ServerState → Prop where
  | init : Reachable initialState
  | step {st : ServerState} (h : Reachable st) (ev : Event) : Reachable (stepState st ev)

/-- TrackKind distinguishes audio from video media tracks. -/
inductive TrackKind where
  | audio
  | video
deriving DecidableEq

/-- Track is one media track: its kind, its `enabled` flag and whether
`stop()` has been called on it. -/
structure Track where
  kind : TrackKind
  enabled : Bool
  stopped : Bool
deriving DecidableEq

/-- ClientMsg is a client-to-server message relevant to the claims. -/
inductive ClientMsg where
  | join_room (r : String)
  | ice (c : Option IceCandidate) (r : String)
deriving DecidableEq

/-- ClientState gathers the page's mutable globals: the local stream, the
peer connection (as the list of tracks added to it), the data channel, the
`srcObject` of the two video elements, the presentation flags and the
current room name. -/
structure ClientState where
  myStream : Option (List Track)
  myPeerConnection : Option (List Track)
  myDataChannel : Option Unit
  myFaceSrc : Option (List Track)
  peerFaceSrc : Option (List Track)
  muted : Bool
  cameraOff : Bool
  roomName : Option String
deriving DecidableEq

/-- initialClientState matches the globals as declared at page load:
nothing initialised, muted and camera off both true. -/
def initialClientState : ClientState :=
  { myStream := none, myPeerConnection := none, myDataChannel := none,
    myFaceSrc := none, peerFaceSrc := none, muted := true, cameraOff := true,
    roomName := none }

/-- splitChars models the JavaScript `candidateStr.split(' ')`: the string
is cut at every single space character. -/
def splitChars : List Char → List Char → List String
  | [], acc => [String.mk acc.reverse]
  | c :: rest, acc =>
    if c = ' ' then String.mk acc.reverse :: splitChars rest []
    else splitChars rest (c :: acc)

/-- handleIce_appjs embeds handleIce of src/src/public/js/app.js: every
generated candidate, the terminal null included, is emitted as an ice
message for the current room. -/
def handleIce_appjs (c : Option IceCandidate) (roomName : String) : List ClientMsg :=
  [ClientMsg.ice c roomName]

/-- handleIce_part0 embeds handleIce of the part_000 client: a null
candidate is only logged (gathering complete) and never emitted; a non-null
candidate is emitted only when its candidate string has at least 8
space-separated fields, re-wrapped from its candidate, sdpMid and
sdpMLineIndex fields. -/
def handleIce_part0 (c : Option IceCandidate) (roomName : String) : List ClientMsg :=
  match c with
  | none => []
  | some cand =>
    if 8 ≤ (splitChars cand.candidate.data []).length then
      [ClientMsg.ice (some { candidate := cand.candidate, sdpMid := cand.sdpMid,
                             sdpMLineIndex := cand.sdpMLineIndex }) roomName]
    else []

/-- disableKind disables every track of the given kind, as the part_000
getMedia does under the muted and cameraOff defaults. -/
def disableKind (k : TrackKind) (ts : List Track) : List Track :=
  ts.map (fun t => if t.kind = k then { t with enabled := false } else t)

/-- getMedia_part0 embeds getMedia of the part_000 client called without a
deviceId; `result` is none when `getUserMedia` rejects.  On failure an
empty stream is substituted (`new MediaStream()`); either way the muted and
cameraOff defaults are applied to whatever tracks exist and the local
preview is set to the stream. -/
def getMedia_part0 (st : ClientState) (result : Option (List Track)) : ClientState :=
  let stream : List Track :=
    match result with
    | some ts => ts
    | none => []
  let s1 := if st.muted then disableKind TrackKind.audio stream else stream
  let s2 := if st.cameraOff then disableKind TrackKind.video s1 else s1
  { st with myStream := some s2, myFaceSrc := some s2 }

/-- setFirstTrackEnabled sets the `enabled` flag of the first track of the
given kind, as `myStream.getAudioTracks()[0].enabled = ...` does. -/
def setFirstTrackEnabled : List Track → TrackKind → Bool → List Track
  | [], _, _ => []
  | t :: rest, k, e =>
    if t.kind = k then { t with enabled := e } :: rest
    else t :: setFirstTrackEnabled rest k e

/-- getMedia_appjs embeds getMedia of src/src/public/js/app.js called
without a deviceId.  When `getUserMedia` rejects the catch block only logs,
leaving every global untouched.  On success the first audio and first video
track get the presentation defaults and the preview is set; indexing a
missing track throws a TypeError inside the try block, which the catch also
swallows, leaving the later statements unexecuted. -/
def getMedia_appjs (st : ClientState) (result : Option (List Track)) : ClientState :=
  match result with
  | none => st
  | some ts =>
    if ts.any (fun t => decide (t.kind = TrackKind.audio)) then
      let t1 := setFirstTrackEnabled ts TrackKind.audio (!st.muted)
      if t1.any (fun t => decide (t.kind = TrackKind.video)) then
        let t2 := setFirstTrackEnabled t1 TrackKind.video (!st.cameraOff)
        { st with myStream := some t2, myFaceSrc := some t2 }
      else { st with myStream := some t1 }
    else { st with myStream := some ts }

/-- makeConnection_appjs embeds makeConnection of app.js: every track of
`myStream` is added to the new peer connection; when `myStream` was never
assigned, `myStream.getTracks()` throws a TypeError that aborts the caller
(the connection object itself was assigned just before the throw). -/
def makeConnection_appjs (st : ClientState) : Option ClientState :=
  match st.myStream with
  | none => none
  | some ts => some { st with myPeerConnection := some ts }

/-- makeConnection_part0 embeds makeConnection of the part_000 client: the
peer connection is always constructed, and tracks are added only when the
stream exists and is non-empty. -/
def makeConnection_part0 (st : ClientState) : ClientState :=
  let tracks : List Track :=
    match st.myStream with
    | some ts => if 0 < ts.length then ts else []
    | none => []
  { st with myPeerConnection := some tracks }

/-- handleWelcomeSubmit_appjs embeds the app.js join flow: initCall (media
then connection), then the join_room emit with the typed room name; a
TypeError inside initCall rejects the awaited promise, so the emit never
happens (result none). -/
def handleWelcomeSubmit_appjs (st : ClientState) (roomInput : String)
    (result : Option (List Track)) : Option (ClientState × List ClientMsg) :=
  match makeConnection_appjs (getMedia_appjs st result) with
  | none => none
  | some st2 => some ({ st2 with roomName := some roomInput }, [ClientMsg.join_room roomInput])

/-- handleWelcomeSubmit_part0 embeds the part_000 join flow, which always
reaches the join_room emit. -/
def handleWelcomeSubmit_part0 (st : ClientState) (roomInput : String)
    (result : Option (List Track)) : ClientState × List ClientMsg :=
  let st2 := makeConnection_part0 (getMedia_part0 st result)
  ({ st2 with roomName := some roomInput }, [ClientMsg.join_room roomInput])

/-- isWelcome recognises welcome messages. -/
def isWelcome : SMsg → Bool
  | SMsg.welcome _ => true
  | _ => false

/-- welcomeEmits restricts an emission list to its welcome messages. -/
def welcomeEmits (l : List Emit) : List Emit :=
  l.filter (fun e => isWelcome e.2)

/-- c2State has sessions 0 and 1 filling room "y" and session 2 idle. -/
def c2State : ServerState :=
  { connected := [0, 1, 2],
    nick := [(0, "Anonymous"), (1, "Anonymous"), (2, "Anonymous")],
    rooms := [("y", [0, 1])] }

/-- c3State has session 0 alone in room "r" and session 1 in no room. -/
def c3State : ServerState :=
  { connected := [0, 1],
    nick := [(0, "Anonymous"), (1, "Anonymous")],
    rooms := [("r", [0])] }

/-- c3StateB has session 0 alone in room "r" and session 1 in no room. -/
def c3StateB : ServerState :=
  { connected := [0, 1],
    nick := [(0, "Anonymous"), (1, "Anonymous")],
    rooms := [("r", [0])] }

/-- c4State has session 0 alone in room "a" and session 1 idle. -/
def c4State : ServerState :=
  { connected := [0, 1],
    nick := [(0, "Anonymous"), (1, "Anonymous")],
    rooms := [("a", [0])] }

/-- c4StateB has session 0 alone in room "a" and session 1 idle. -/
def c4StateB : ServerState :=
  { connected := [0, 1],
    nick := [(0, "Anonymous"), (1, "Anonymous")],
    rooms := [("a", [0])] }

/-- c5State has session 0 alone in room "x" and session 1 idle. -/
def c5State : ServerState :=
  { connected := [0, 1],
    nick := [(0, "Anonymous"), (1, "Anonymous")],
    rooms := [("x", [0])] }

/-- c8State has sessions 0 and 1 sharing room "w". -/
def c8State : ServerState :=
  { connected := [0, 1],
    nick := [(0, "Anonymous"), (1, "Anonymous")],
    rooms := [("w", [0, 1])] }

/-- c10State has sessions 0 and 1 filling room "z". -/
def c10State : ServerState :=
  { connected := [0, 1],
    nick := [(0, "Anonymous"), (1, "Anonymous")],
    rooms := [("z", [0, 1])] }

/-- c9State is a client mid-call: stream, peer connection and data channel
all present, local preview showing. -/
def c9State : ClientState :=
  { myStream := some [{ kind := TrackKind.audio, enabled := true, stopped := false }],
    myPeerConnection := some [{ kind := TrackKind.audio, enabled := true, stopped := false }],
    myDataChannel := some (),
    myFaceSrc := some [{ kind := TrackKind.audio, enabled := true, stopped := false }],
    peerFaceSrc := none, muted := false, cameraOff := false,
    roomName := some "main" }

/-- Effect is one destructive side effect of the teardown code. -/
inductive Effect where
  | closeDataChannel
  | stopTrack (t : Track)
  | closePeerConnection
deriving DecidableEq

/-- stopTracks marks every track of a stream stopped. -/
def stopTracks (ts : List Track) : List Track :=
  ts.map (fun t => { t with stopped := true })

/-- cleanupWebRTC embeds cleanupWebRTC (identical in app.js and part_000):
when a peer connection exists, the data channel (if any) is closed, every
local track is stopped and the connection is closed; in every case both
video surfaces are cleared.  The returned list records the destructive
operations performed. -/
def cleanupWebRTC (st : ClientState) : ClientState × List Effect :=
  match st.myPeerConnection with
  | none =>
    ({ st with myFaceSrc := none, peerFaceSrc := none }, [])
  | some _ =>
    let dcEff : List Effect :=
      match st.myDataChannel with
      | some _ => [Effect.closeDataChannel]
      | none => []
    let trEff : List Effect :=
      match st.myStream with
      | some ts => ts.map Effect.stopTrack
      | none => []
    let newStream : Option (List Track) :=
      match st.myStream with
      | some ts => some (stopTracks ts)
      | none => none
    ({ st with myPeerConnection := none, myDataChannel := none,
               myStream := newStream, myFaceSrc := none, peerFaceSrc := none },
     dcEff ++ trEff ++ [Effect.closePeerConnection])

/-- A membership lookup after `socket.join`: the target room gains the
session (unless already present, at the end of its member list); every
other room is untouched. -/
theorem membersOf_addMember (rooms : List (RoomName × List SessionId))
    (r q : RoomName) (sid : SessionId) :
    membersOf (addMember rooms r sid) q =
      if q = r then
        (if sid ∈ membersOf rooms r then membersOf rooms r
         else membersOf rooms r ++ [sid])
      else membersOf rooms q := by
  induction rooms with
  | nil =>
    by_cases hqr : q = r
    · subst hqr
      simp [addMember, membersOf]
    · simp [addMember, membersOf, hqr, Ne.symm hqr]
  | cons p rest ih =>
    obtain ⟨a, ms⟩ := p
    by_cases har : a = r
    · subst har
      by_cases hqa : q = a
      · subst hqa
        simp [addMember, membersOf]
      · simp [addMember, membersOf, hqa, Ne.symm hqa]
    · by_cases haq : a = q
      · subst haq
        simp [addMember, membersOf, har, Ne.symm har]
      · simp [addMember, membersOf, har, haq, ih]

/-- A membership lookup after `socket.leave`: the session is gone from the
target room; every other room is untouched. -/
theorem membersOf_removeMember (rooms : List (RoomName × List SessionId))
    (r q : RoomName) (sid : SessionId) :
    membersOf (removeMember rooms r sid) q =
      if q = r then (membersOf rooms r).filter (fun t => t != sid)
      else membersOf rooms q := by
  induction rooms with
  | nil =>
    by_cases hqr : q = r
    · subst hqr; simp [removeMember, membersOf]
    · simp [removeMember, membersOf, hqr]
  | cons p rest ih =>
    obtain ⟨a, ms⟩ := p
    by_cases har : a = r
    · subst har
      by_cases hqa : q = a
      · subst hqa
        simp [removeMember, membersOf]
      · simp [removeMember, membersOf, hqa, Ne.symm hqa]
    · by_cases haq : a = q
      · subst haq
        simp [removeMember, membersOf, har, Ne.symm har]
      · simp [removeMember, membersOf, har, haq, ih]

/-- A membership lookup after a disconnect: the session is gone from every
room. -/
theorem membersOf_removeFromAll (rooms : List (RoomName × List SessionId))
    (sid : SessionId) (q : RoomName) :
    membersOf (removeFromAll rooms sid) q =
      (membersOf rooms q).filter (fun t => t != sid) := by
  induction rooms with
  | nil => rfl
  | cons p rest ih =>
    obtain ⟨a, ms⟩ := p
    by_cases haq : a = q
    · subst haq
      simp [removeFromAll, membersOf]
    · simpa [removeFromAll, membersOf, haq] using ih

/-- Storing a nickname makes it the one subsequently read. -/
theorem lookupNick_setNick_self (l : List (SessionId × String)) (sid : SessionId) (n : String) :
    lookupNick (setNick l sid n) sid = n := by
  induction l with
  | nil => simp [setNick, lookupNick]
  | cons p rest ih =>
    obtain ⟨s, m⟩ := p
    by_cases hs : s = sid
    · subst hs
      simp [setNick, lookupNick]
    · simp [setNick, lookupNick, hs, ih]

/-- Storing a nickname leaves every other session's nickname unchanged. -/
theorem lookupNick_setNick_ne (l : List (SessionId × String)) (sid t : SessionId) (n : String)
    (h : t ≠ sid) :
    lookupNick (setNick l sid n) t = lookupNick l t := by
  induction l with
  | nil => simp [setNick, lookupNick, Ne.symm h]
  | cons p rest ih =>
    obtain ⟨s, m⟩ := p
    by_cases hs : s = sid
    · subst hs
      simp [setNick, lookupNick, Ne.symm h]
    · simp [setNick, lookupNick, hs, ih]

/-- A join request against a room with at least 2 members takes the
rejection branch: room_full to the requester, no state change, no ack. -/
theorem join_room_full (st : ServerState) (sid : SessionId) (r : RoomName)
    (h : 2 ≤ countRoomMembers st r) :
    join_room st sid r = { state := st, emits := [(sid, SMsg.room_full)], ack := false } := by
  simp [join_room, h]

/-- A join request against a room with fewer than 2 members takes the
admission branch. -/
theorem join_room_ok (st : ServerState) (sid : SessionId) (r : RoomName)
    (h : countRoomMembers st r < 2) :
    join_room st sid r =
      { state := joinedState st sid r,
        emits := toRoom (joinedState st sid r) sid r (SMsg.welcome (getNick st sid))
                   ++ broadcastAll (joinedState st sid r)
                        (SMsg.room_change (publicRooms (joinedState st sid r))),
        ack := true } := by
  simp [join_room, Nat.not_le.mpr h]

/-- welcomeEmits distributes over append. -/
theorem welcomeEmits_append (l1 l2 : List Emit) :
    welcomeEmits (l1 ++ l2) = welcomeEmits l1 ++ welcomeEmits l2 := by
  simp [welcomeEmits, List.filter_append]

/-- A uniform emission of a non-welcome message contains no welcome. -/
theorem welcomeEmits_map_pair (l : List SessionId) (m : SMsg) (hm : isWelcome m = false) :
    welcomeEmits (l.map (fun t => (t, m))) = [] := by
  induction l with
  | nil => rfl
  | cons t rest ih => simp [welcomeEmits, hm]

/-- A uniform emission of welcome messages is kept whole by welcomeEmits. -/
theorem welcomeEmits_map_welcome (l : List SessionId) (x : String) :
    welcomeEmits (l.map (fun t => (t, SMsg.welcome x))) = l.map (fun t => (t, SMsg.welcome x)) := by
  induction l with
  | nil => rfl
  | cons t rest ih => simp [welcomeEmits, isWelcome]

/-- Every reachable server state keeps every room at 2 members or fewer. -/
theorem countRoomMembers_le_two_of_reachable (st : ServerState) (h : Reachable st) :
    ∀ r, countRoomMembers st r ≤ 2 := by
  induction h with
  | init =>
    intro r
    simp [countRoomMembers, initialState, membersOf]
  | @step st0 h ev ih =>
    intro r
    cases ev with
    | connect sid => exact ih r
    | join sid q =>
      by_cases hfull : 2 ≤ countRoomMembers st0 q
      · show countRoomMembers (join_room st0 sid q).state r ≤ 2
        rw [join_room_full st0 sid q hfull]
        exact ih r
      · have hlt : countRoomMembers st0 q < 2 := Nat.lt_of_not_le hfull
        show countRoomMembers (join_room st0 sid q).state r ≤ 2
        rw [join_room_ok st0 sid q hlt]
        show (membersOf (addMember st0.rooms q sid) r).length ≤ 2
        rw [membersOf_addMember]
        split_ifs with hrq hmem
        · exact ih q
        · have hq : (membersOf st0.rooms q).length < 2 := hlt
          simp only [List.length_append, List.length_cons, List.length_nil]
          omega
        · exact ih r
    | leave sid q =>
      show (membersOf (removeMember st0.rooms q sid) r).length ≤ 2
      rw [membersOf_removeMember]
      split_ifs with hrq
      · exact le_trans (List.length_filter_le _ _) (ih q)
      · exact ih r
    | disconnect sid =>
      show (membersOf (removeFromAll st0.rooms sid) r).length ≤ 2
      rw [membersOf_removeFromAll]
      exact le_trans (List.length_filter_le _ _) (ih r)
    | newMsg sid m q => exact ih r
    | rename sid n => exact ih r
    | offer sid p q => exact ih r
    | answer sid p q => exact ih r
    | ice sid c q => exact ih r

/-- C1: at every reachable server state every room has at most 2 members;
the join_room handler admits a session only below that bound, so no
sequence of join, leave or disconnect events produces a room with 3 or
more members. -/
theorem C1_room_capacity_invariant (st : ServerState) (h : Reachable st) (r : RoomName) :
    countRoomMembers st r ≤ 2 :=
  countRoomMembers_le_two_of_reachable st h r

/-- C1 witness: the bound holds at the concrete reachable state in which
session 0 connected and joined the room "lobby". -/
theorem C1_room_capacity_invariant_witness :
    countRoomMembers (stepState (stepState initialState (Event.connect 0)) (Event.join 0 "lobby")) "lobby" ≤ 2 :=
  C1_room_capacity_invariant
    (stepState (stepState initialState (Event.connect 0)) (Event.join 0 "lobby"))
    (Reachable.step (Reachable.step Reachable.init (Event.connect 0)) (Event.join 0 "lobby"))
    "lobby"

/-- C2: a join_room request naming a room that already has 2 members makes
the requester alone receive room_full, leaves the whole server state (so
the room's member set, and the requester's non-membership) unchanged, and
never invokes the acknowledgment callback. -/
theorem C2_join_full_rejected (st : ServerState) (sid : SessionId) (r : RoomName)
    (h : countRoomMembers st r = 2) :
    join_room st sid r = { state := st, emits := [(sid, SMsg.room_full)], ack := false } :=
  join_room_full st sid r (le_of_eq h.symm)

/-- C2 witness: session 2 asking to join the full room "y" of c2State. -/
theorem C2_join_full_rejected_witness :
    join_room c2State 2 "y" = { state := c2State, emits := [(2, SMsg.room_full)], ack := false } :=
  C2_join_full_rejected c2State 2 "y" (by decide)

/-- C10: a session that is already one of the 2 members of a full room and
re-sends join_room for that same room is itself refused: the occupancy
check counts its own membership, so it receives room_full, the state is
unchanged and the acknowledgment callback does not fire. -/
theorem C10_self_rejoin_full (st : ServerState) (sid : SessionId) (r : RoomName)
    (_hmem : sid ∈ membersOf st.rooms r) (h : countRoomMembers st r = 2) :
    join_room st sid r = { state := st, emits := [(sid, SMsg.room_full)], ack := false } :=
  join_room_full st sid r (le_of_eq h.symm)

/-- C10 witness: session 0, a member of the full room "z" of c10State,
re-sends join_room for "z". -/
theorem C10_self_rejoin_full_witness :
    join_room c10State 0 "z" = { state := c10State, emits := [(0, SMsg.room_full)], ack := false } :=
  C10_self_rejoin_full c10State 0 "z" (by decide) (by decide)

/-- C5: when a session joins a room holding exactly one other member, the
join is acknowledged and welcome, carrying the joiner's current nickname,
is delivered to that other member only — the joiner itself receives no
welcome; when the first session joins an empty room, the join is
acknowledged and no welcome is delivered to anyone. -/
theorem C5_welcome_to_first_member_only (st : ServerState) (a b : SessionId) (r : RoomName) :
    (membersOf st.rooms r = [a] → a ≠ b →
        welcomeEmits (join_room st b r).emits = [(a, SMsg.welcome (getNick st b))] ∧
        (join_room st b r).ack = true) ∧
    (membersOf st.rooms r = [] →
        welcomeEmits (join_room st b r).emits = [] ∧ (join_room st b r).ack = true) := by
  constructor
  · intro hm hab
    have hcount : countRoomMembers st r < 2 := by
      simp [countRoomMembers, hm]
    rw [join_room_ok st b r hcount]
    refine ⟨?_, rfl⟩
    have hmm : membersOf (joinedState st b r).rooms r = [a, b] := by
      simp [joinedState, membersOf_addMember, hm, Ne.symm hab]
    rw [welcomeEmits_append]
    have hbr : welcomeEmits (broadcastAll (joinedState st b r)
        (SMsg.room_change (publicRooms (joinedState st b r)))) = [] :=
      welcomeEmits_map_pair _ _ rfl
    rw [hbr, List.append_nil]
    simp [toRoom, hmm, hab, welcomeEmits, isWelcome]
  · intro hm
    have hcount : countRoomMembers st r < 2 := by
      simp [countRoomMembers, hm]
    rw [join_room_ok st b r hcount]
    refine ⟨?_, rfl⟩
    have hmm : membersOf (joinedState st b r).rooms r = [b] := by
      simp [joinedState, membersOf_addMember, hm]
    rw [welcomeEmits_append]
    have hbr : welcomeEmits (broadcastAll (joinedState st b r)
        (SMsg.room_change (publicRooms (joinedState st b r)))) = [] :=
      welcomeEmits_map_pair _ _ rfl
    rw [hbr, List.append_nil]
    simp [toRoom, hmm, welcomeEmits]

/-- C5 witness: session 1 joining the room "x" that session 0 occupies in
c5State, and session 1 joining the empty room "fresh". -/
theorem C5_welcome_to_first_member_only_witness :
    (welcomeEmits (join_room c5State 1 "x").emits = [(0, SMsg.welcome (getNick c5State 1))] ∧
        (join_room c5State 1 "x").ack = true) ∧
    (welcomeEmits (join_room c5State 1 "fresh").emits = [] ∧
        (join_room c5State 1 "fresh").ack = true) :=
  ⟨(C5_welcome_to_first_member_only c5State 0 1 "x").1 (by decide) (by decide),
   (C5_welcome_to_first_member_only c5State 0 1 "fresh").2 (by decide)⟩

/-- C8: the nickname handler emits nothing, changes neither the rooms nor
the session list, stores the new name for the sender only, and every
subsequent chat relay, bye and welcome involving that session carries the
new name. -/
theorem C8_rename_frame (st : ServerState) (sid : SessionId) (n m : String) (r : RoomName) :
    (nickname_handler st sid n).emits = [] ∧
    (nickname_handler st sid n).state.rooms = st.rooms ∧
    (nickname_handler st sid n).state.connected = st.connected ∧
    getNick (nickname_handler st sid n).state sid = n ∧
    (∀ t, t ≠ sid → getNick (nickname_handler st sid n).state t = getNick st t) ∧
    (new_message (nickname_handler st sid n).state sid m r).emits
      = toRoom st sid r (SMsg.new_message (n ++ ": " ++ m)) ∧
    (leave_room (nickname_handler st sid n).state sid r).emits
      = toRoom st sid r (SMsg.bye n)
          ++ broadcastAll (leftState (nickname_handler st sid n).state sid r)
               (SMsg.room_change (publicRooms (leftState (nickname_handler st sid n).state sid r))) ∧
    (countRoomMembers st r < 2 →
      welcomeEmits (join_room (nickname_handler st sid n).state sid r).emits
        = ((membersOf (addMember st.rooms r sid) r).filter (fun t => t != sid)).map
            (fun t => (t, SMsg.welcome n))) := by
  refine ⟨rfl, rfl, rfl, ?_, ?_, ?_, ?_, ?_⟩
  · exact lookupNick_setNick_self st.nick sid n
  · intro t ht
    exact lookupNick_setNick_ne st.nick sid t n ht
  · simp [new_message, nickname_handler, toRoom, getNick, lookupNick_setNick_self]
  · simp [leave_room, nickname_handler, toRoom, getNick, lookupNick_setNick_self]
  · intro hc
    have hc' : countRoomMembers (nickname_handler st sid n).state r < 2 := hc
    rw [join_room_ok _ sid r hc', welcomeEmits_append]
    have hbr : welcomeEmits (broadcastAll (joinedState (nickname_handler st sid n).state sid r)
        (SMsg.room_change (publicRooms (joinedState (nickname_handler st sid n).state sid r)))) = [] :=
      welcomeEmits_map_pair _ _ rfl
    rw [hbr, List.append_nil]
    simp only [toRoom, joinedState, nickname_handler, getNick, lookupNick_setNick_self]
    exact welcomeEmits_map_welcome _ n

/-- C8 witness: session 0 of c8State renames to "alice"; the stored name,
another session's name, a subsequent chat relay and a subsequent welcome
are checked concretely. -/
theorem C8_rename_frame_witness :
    (nickname_handler c8State 0 "alice").emits = [] ∧
    getNick (nickname_handler c8State 0 "alice").state 0 = "alice" ∧
    getNick (nickname_handler c8State 0 "alice").state 1 = getNick c8State 1 ∧
    (new_message (nickname_handler c8State 0 "alice").state 0 "hi" "w").emits
      = toRoom c8State 0 "w" (SMsg.new_message ("alice" ++ ": " ++ "hi")) ∧
    welcomeEmits (join_room (nickname_handler c8State 0 "alice").state 0 "v").emits
      = ((membersOf (addMember c8State.rooms "v" 0) "v").filter (fun t => t != 0)).map
          (fun t => (t, SMsg.welcome "alice")) := by
  have h := C8_rename_frame c8State 0 "alice" "hi" "w"
  have h2 := C8_rename_frame c8State 0 "alice" "hi" "v"
  exact ⟨h.1, h.2.2.2.1, h.2.2.2.2.1 1 (by decide), h.2.2.2.2.2.1,
         h2.2.2.2.2.2.2.2 (by decide)⟩

/-- C3 counterexample: in c3State session 1 is not a member of room "r",
yet its new_message into "r" is delivered to session 0, that room's member
— so a non-member sender can cause delivery to the room's members,
refuting the claim at this input. -/
theorem C3_nonmember_sender_delivers :
    (1 : SessionId) ∉ membersOf c3State.rooms "r" ∧
    (new_message c3State 1 "hi" "r").emits = [(0, SMsg.new_message "Anonymous: hi")] := by
  decide

/-- C3 amended: every room-scoped message (offer, answer, ice, new_message,
bye) is delivered exactly to the current members of the NAMED room other
than the sender, with membership evaluated per message at delivery time;
the sender's own membership of that room is not checked, so a session
outside the room can still cause delivery to the room's members. -/
theorem C3_room_scoped_delivery (st : ServerState) (sid : SessionId) (r : RoomName)
    (m p a : String) (c : Option IceCandidate) :
    (new_message st sid m r).emits
      = ((membersOf st.rooms r).filter (fun t => t != sid)).map
          (fun t => (t, SMsg.new_message (getNick st sid ++ ": " ++ m))) ∧
    (offer_handler st sid p r).emits
      = ((membersOf st.rooms r).filter (fun t => t != sid)).map (fun t => (t, SMsg.offer p)) ∧
    (answer_handler st sid a r).emits
      = ((membersOf st.rooms r).filter (fun t => t != sid)).map (fun t => (t, SMsg.answer a)) ∧
    (ice_handler st sid c r).emits
      = ((membersOf st.rooms r).filter (fun t => t != sid)).map (fun t => (t, SMsg.ice c)) ∧
    (leave_room st sid r).emits
      = ((membersOf st.rooms r).filter (fun t => t != sid)).map
          (fun t => (t, SMsg.bye (getNick st sid)))
          ++ broadcastAll (leftState st sid r)
               (SMsg.room_change (publicRooms (leftState st sid r))) ∧
    (∀ e ∈ (new_message st sid m r).emits, e.1 ∈ membersOf st.rooms r ∧ e.1 ≠ sid) := by
  refine ⟨rfl, rfl, rfl, rfl, rfl, ?_⟩
  intro e he
  simp only [new_message, toRoom, List.mem_map] at he
  obtain ⟨t, ht, rfl⟩ := he
  rw [List.mem_filter] at ht
  refine ⟨ht.1, ?_⟩
  simpa using ht.2

/-- C3 witness: the delivery characterisation applied at c3StateB shows the
one recipient of a chat line into room "r" is a member of "r" distinct from
the sender. -/
theorem C3_room_scoped_delivery_witness :
    (0 : SessionId) ∈ membersOf c3StateB.rooms "r" ∧ (0 : SessionId) ≠ 1 := by
  have h := (C3_room_scoped_delivery c3StateB 1 "r" "hi" "p" "a" none).2.2.2.2.2
  exact h (0, SMsg.new_message "Anonymous: hi") (by decide)

/-- C4 counterexample: in c4State session 0 sits in room "a"; after session
1 successfully joins room "b", session 0 — which is not idle — still
receives the room_change broadcast, refuting the idle-only claim at this
input. -/
theorem C4_inroom_session_receives_room_change :
    (0 : SessionId) ∈ membersOf c4State.rooms "a" ∧
    (0, SMsg.room_change (publicRooms (join_room c4State 1 "b").state))
      ∈ (join_room c4State 1 "b").emits ∧
    (join_room c4State 1 "b").ack = true := by
  decide

/-- C4 amended: after every successful join, every leave and every
disconnect, the relay recomputes the public room list from the updated
state and broadcasts room_change to ALL connected sessions — sessions
currently in a room included, not only idle ones. -/
theorem C4_room_change_to_all_connected (st : ServerState) (sid : SessionId) (r : RoomName)
    (h : countRoomMembers st r < 2) :
    (join_room st sid r).emits
      = toRoom (joinedState st sid r) sid r (SMsg.welcome (getNick st sid))
          ++ (joinedState st sid r).connected.map
               (fun t => (t, SMsg.room_change (publicRooms (joinedState st sid r)))) ∧
    (leave_room st sid r).emits
      = toRoom st sid r (SMsg.bye (getNick st sid))
          ++ (leftState st sid r).connected.map
               (fun t => (t, SMsg.room_change (publicRooms (leftState st sid r)))) ∧
    (onDisconnect st sid).emits
      = byesOnDisconnect st sid
          ++ (discState st sid).connected.map
               (fun t => (t, SMsg.room_change (publicRooms (discState st sid)))) := by
  refine ⟨?_, rfl, rfl⟩
  rw [join_room_ok st sid r h]
  rfl

/-- C4 amended witness: the three emission characterisations instantiated
at c4StateB with session 1 and room "b". -/
theorem C4_room_change_to_all_connected_witness :
    (join_room c4StateB 1 "b").emits
      = toRoom (joinedState c4StateB 1 "b") 1 "b" (SMsg.welcome (getNick c4StateB 1))
          ++ (joinedState c4StateB 1 "b").connected.map
               (fun t => (t, SMsg.room_change (publicRooms (joinedState c4StateB 1 "b")))) ∧
    (leave_room c4StateB 1 "b").emits
      = toRoom c4StateB 1 "b" (SMsg.bye (getNick c4StateB 1))
          ++ (leftState c4StateB 1 "b").connected.map
               (fun t => (t, SMsg.room_change (publicRooms (leftState c4StateB 1 "b")))) ∧
    (onDisconnect c4StateB 1).emits
      = byesOnDisconnect c4StateB 1
          ++ (discState c4StateB 1).connected.map
               (fun t => (t, SMsg.room_change (publicRooms (discState c4StateB 1)))) :=
  C4_room_change_to_all_connected c4StateB 1 "b" (by decide)

/-- C6 counterexample: the part_000 client's handleIce, given the terminal
null candidate while in room "main", emits nothing — the end-of-candidates
signal is suppressed locally, so it is never handed to the relay, refuting
the claim at this input. -/
theorem C6_part0_suppresses_null_candidate :
    handleIce_part0 none "main" = [] := rfl

/-- C6 amended: the relay forwards every ice message it receives unchanged
(and without touching its state) to the named room's current members other
than the sender, and the app.js client emits every locally generated
candidate, terminal null included; the part_000 client instead emits only
non-null candidates whose candidate string has at least 8 space-separated
fields (re-wrapped from the candidate, sdpMid and sdpMLineIndex fields),
suppressing the terminal null and malformed candidates locally. -/
theorem C6_ice_forwarding (st : ServerState) (sid : SessionId) (r : RoomName)
    (c : Option IceCandidate) (cand : IceCandidate) (rn : String) :
    (ice_handler st sid c r).emits
      = ((membersOf st.rooms r).filter (fun t => t != sid)).map (fun t => (t, SMsg.ice c)) ∧
    (ice_handler st sid c r).state = st ∧
    handleIce_appjs c rn = [ClientMsg.ice c rn] ∧
    handleIce_part0 none rn = [] ∧
    handleIce_part0 (some cand) rn
      = (if 8 ≤ (splitChars cand.candidate.data []).length
         then [ClientMsg.ice (some { candidate := cand.candidate, sdpMid := cand.sdpMid,
                                     sdpMLineIndex := cand.sdpMLineIndex }) rn]
         else []) :=
  ⟨rfl, rfl, rfl, rfl, rfl⟩

/-- C7 counterexample: in the app.js client a join attempt from the fresh
page state whose device access fails aborts — getMedia only logs the
failure, makeConnection then throws on the missing stream, and the
join_room message is never emitted — refuting the no-abort claim at this
input. -/
theorem C7_appjs_aborts_on_media_failure :
    handleWelcomeSubmit_appjs initialClientState "main" none = none := rfl

/-- C7 amended: in the part_000 client a join attempt whose device access
fails does not abort: an empty media capture is substituted, the muted and
cameraDisabled defaults apply to the (empty) track list, the local preview
is set, the peer connection is constructed and join_room is emitted; in
the app.js client the same failure is only logged, no empty capture is
substituted, and the join flow aborts with no join_room emitted. -/
theorem C7_media_failure_graceful_part0 (st : ClientState) (r : String)
    (h : st.myStream = none) :
    handleWelcomeSubmit_appjs st r none = none ∧
    handleWelcomeSubmit_part0 st r none
      = ({ st with
           myStream := some []
           myFaceSrc := some []
           myPeerConnection := some []
           roomName := some r }, [ClientMsg.join_room r]) := by
  constructor
  · simp [handleWelcomeSubmit_appjs, getMedia_appjs, makeConnection_appjs, h]
  · simp [handleWelcomeSubmit_part0, getMedia_part0, makeConnection_part0, disableKind]

/-- C7 witness: the amended behaviour at the fresh page state and room
"robot". -/
theorem C7_media_failure_graceful_part0_witness :
    handleWelcomeSubmit_appjs initialClientState "robot" none = none ∧
    handleWelcomeSubmit_part0 initialClientState "robot" none
      = ({ initialClientState with
           myStream := some []
           myFaceSrc := some []
           myPeerConnection := some []
           roomName := some "robot" },
         [ClientMsg.join_room "robot"]) :=
  C7_media_failure_graceful_part0 initialClientState "robot" rfl

/-- C9: client teardown is idempotent: running cleanupWebRTC a second time
on the state left by a first run changes nothing and performs no
destructive operation (no close, no track stop) — cleanup composed with
cleanup has the same effect on the client state as a single cleanup. -/
theorem C9_cleanup_idempotent (st : ClientState) :
    (cleanupWebRTC (cleanupWebRTC st).1).1 = (cleanupWebRTC st).1 ∧
    (cleanupWebRTC (cleanupWebRTC st).1).2 = [] := by
  obtain ⟨ms, pc, dc, mf, pf, mu, co, rn⟩ := st
  cases pc <;> cases dc <;> cases ms <;> exact ⟨rfl, rfl⟩

/-- C6 witness: the forwarding characterisation instantiated concretely:
the app.js client emits the terminal null for room "main2" while the
part_000 client emits nothing for it. -/
theorem C6_ice_forwarding_witness :
    handleIce_appjs none "main2" = [ClientMsg.ice none "main2"] ∧
    handleIce_part0 none "main2" = [] :=
  ⟨(C6_ice_forwarding initialState 0 "r" none ⟨"x", "0", 0⟩ "main2").2.2.1,
   (C6_ice_forwarding initialState 0 "r" none ⟨"x", "0", 0⟩ "main2").2.2.2.1⟩

/-- C9 witness: idempotence of teardown at the concrete mid-call client
state c9State. -/
theorem C9_cleanup_idempotent_witness :
    (cleanupWebRTC (cleanupWebRTC c9State).1).1 = (cleanupWebRTC c9State).1 ∧
    (cleanupWebRTC (cleanupWebRTC c9State).1).2 = [] :=
  C9_cleanup_idempotent c9State
